import Mathlib

/-!
Shallow embedding of the metadata parser of `src/main.py` (WinApkInfo).

The Python parser `parse_aapt2_output` applies a fixed collection of regular
expressions to one input string.  Every pattern used there is built from
literal fragments, the classes `\s`, `[^']`, `[\w-]`, `[0-9]`, and greedy
quantifiers whose follow character lies outside the repeated class, so each
pattern matches deterministically by maximal munch.  The embedding models each
pattern as a function on `List Char`, `re.search` as leftmost match and
`re.findall` as non-overlapping left-to-right matching, exactly as CPython
behaves on these patterns.  Whitespace and line-break classes are modelled at
their ASCII and Latin-1 members; the claims exercise ASCII inputs only.
-/

/-- The single-quote character, written by code to keep source literals free of
quote escapes. -/
def sqc : Char := Char.ofNat 39

/-- One-character string holding the single quote. -/
def sqs : String := String.mk [sqc]

/-- Wrap a string in single quotes (used to build concrete aapt2-style inputs). -/
def q (s : String) : String := sqs ++ s ++ sqs

/-- Append the single quote to a literal: the pattern fragment `lit'`. -/
def aq (s : String) : List Char := s.data ++ [sqc]

/-- Python regex class `\s` (ASCII members). -/
def isSpc (c : Char) : Bool :=
  c = ' ' || c = '\t' || c = '\n' || c = '\r' || c = '\x0b' || c = '\x0c'

/-- Whitespace stripped by Python `str.strip` (ASCII and Latin-1 members). -/
def isPySpace (c : Char) : Bool :=
  isSpc c || c = '\x1c' || c = '\x1d' || c = '\x1e' || c = '\x1f' ||
  c = '\x85' || c = '\xa0'

/-- Python `str.strip`: drop leading and trailing whitespace. -/
def pyStrip (s : List Char) : List Char :=
  ((s.dropWhile isPySpace).reverse.dropWhile isPySpace).reverse

/-- Line-break characters recognised by Python `str.splitlines`. -/
def isNewline (c : Char) : Bool :=
  c = '\n' || c = '\r' || c = '\x0b' || c = '\x0c' ||
  c = '\x1c' || c = '\x1d' || c = '\x1e' || c = '\x85' ||
  c = Char.ofNat 8232 || c = Char.ofNat 8233

/-- Fuel-indexed worker for `splitlines` (each step consumes at least one
character, so the fuel `length + 1` never runs out). -/
def splitlinesFuel : Nat → List Char → List (List Char)
  | 0, _ => []
  | Nat.succ fuel, s =>
    match s with
    | [] => []
    | _ :: _ =>
      match s.span (fun c => !isNewline c) with
      | (line, []) => [line]
      | (line, b :: rest) =>
        if b = '\r' then
          match rest with
          | '\n' :: rest2 => line :: splitlinesFuel fuel rest2
          | _ => line :: splitlinesFuel fuel rest
        else line :: splitlinesFuel fuel rest

/-- Python `str.splitlines` (no trailing empty line, `\r\n` is one break). -/
def splitlines (s : List Char) : List (List Char) :=
  splitlinesFuel (s.length + 1) s

/-- Consume an exact literal fragment; return the remainder on success. -/
def dropLit : List Char → List Char → Option (List Char)
  | [], s => some s
  | _ :: _, [] => none
  | l :: ls, c :: cs => if c = l then dropLit ls cs else none

/-- Python `str.startswith` on character lists. -/
def startsWithL (p s : List Char) : Bool := (dropLit p s).isSome

/-- The pattern fragment `\s+`: at least one whitespace character, maximal
munch (the follow characters in every use are non-whitespace literals). -/
def ws1 : List Char → Option (List Char)
  | [] => none
  | c :: cs => if isSpc c then some (cs.dropWhile isSpc) else none

/-- The fragment `[^']+'`, entered just after an opening quote: a non-empty
run of non-quote characters followed by the closing quote.  Returns the
captured run and the remainder after the closing quote. -/
def closeQ1 (s : List Char) : Option (List Char × List Char) :=
  match s.span (· != sqc) with
  | ([], _) => none
  | (_, []) => none
  | (tok, _ :: r) => some (tok, r)

/-- The fragment `[^']*'`: like `closeQ1` but the captured run may be empty. -/
def closeQ0 (s : List Char) : Option (List Char × List Char) :=
  match s.span (· != sqc) with
  | (_, []) => none
  | (tok, _ :: r) => some (tok, r)

/-- The pattern `'([^']+)'`: one whole single-quoted token. -/
def quotedTok : List Char → Option (List Char × List Char)
  | [] => none
  | c :: cs => if c = sqc then closeQ1 cs else none

/-- `re.search`: try the matcher at every start position, leftmost wins. -/
def search {α : Type} (m : List Char → Option α) : List Char → Option α
  | [] => m []
  | c :: cs =>
    match m (c :: cs) with
    | some r => some r
    | none => search m cs

/-- Fuel-indexed worker for `findall`; on a match the scan resumes at the end
of the match (all matchers used consume at least one character). -/
def findallFuel {α : Type} (m : List Char → Option (α × List Char)) :
    Nat → List Char → List α
  | 0, _ => []
  | Nat.succ fuel, s =>
    match m s with
    | some (a, rest) => a :: findallFuel m fuel rest
    | none =>
      match s with
      | [] => []
      | _ :: cs => findallFuel m fuel cs

/-- `re.findall`: all non-overlapping matches, left to right. -/
def findall {α : Type} (m : List Char → Option (α × List Char))
    (s : List Char) : List α :=
  findallFuel m (s.length + 1) s

/-- `package:\s+name='([^']+)'\s+versionCode='([^']+)'\s+versionName='([^']+)'.*?`
(the trailing non-greedy `.*?` at pattern end matches the empty string). -/
def matchPkg (s : List Char) : Option (List Char × List Char × List Char) :=
  (dropLit (("package:").data) s).bind fun s1 =>
  (ws1 s1).bind fun s2 =>
  (dropLit (aq ("name=")) s2).bind fun s3 =>
  (closeQ1 s3).bind fun p1 =>
  (ws1 p1.2).bind fun s4 =>
  (dropLit (aq ("versionCode=")) s4).bind fun s5 =>
  (closeQ1 s5).bind fun p2 =>
  (ws1 p2.2).bind fun s6 =>
  (dropLit (aq ("versionName=")) s6).bind fun s7 =>
  (closeQ1 s7).map fun p3 => (p1.1, p2.1, p3.1)

/-- A pattern `lit` followed by `([^']+)'` (the literal ends with the opening
quote), capturing the quoted value. -/
def matchLitQ1 (lit : List Char) (s : List Char) : Option (List Char) :=
  (dropLit lit s).bind fun s1 => (closeQ1 s1).map Prod.fst

/-- A pattern `lit` followed by `([^']*)'`, capturing the (possibly empty)
quoted value. -/
def matchLitQ0 (lit : List Char) (s : List Char) : Option (List Char) :=
  (dropLit lit s).bind fun s1 => (closeQ0 s1).map Prod.fst

/-- A pattern `lit1` `\s+` `lit2` `([^']*)'` (e.g. `application:\s+label='…'`,
`launchable-activity:\s+name='…'`). -/
def matchKeyQ0 (lit1 lit2 : List Char) (s : List Char) : Option (List Char) :=
  (dropLit lit1 s).bind fun s1 =>
  (ws1 s1).bind fun s2 =>
  (dropLit lit2 s2).bind fun s3 =>
  (closeQ0 s3).map Prod.fst

/-- A pattern `lit` `\s+` `name='([^']+)'` used for permissions and features;
returns the capture and the remainder after the match. -/
def matchKeyName (lit : List Char) (s : List Char) :
    Option (List Char × List Char) :=
  (dropLit lit s).bind fun s1 =>
  (ws1 s1).bind fun s2 =>
  (dropLit (aq ("name=")) s2).bind fun s3 =>
  closeQ1 s3

/-- A pattern `lit` `\s+` `'([^']+)'` (the `supports-any-density` line). -/
def matchKeyTok (lit : List Char) (s : List Char) : Option (List Char) :=
  (dropLit lit s).bind fun s1 =>
  (ws1 s1).bind fun s2 =>
  (quotedTok s2).map Prod.fst

/-- Python regex class `[\w-]` (ASCII members of `\w`, plus the dash). -/
def isWordDash (c : Char) : Bool := c.isAlphanum || c = '_' || c = '-'

/-- `application-label-([\w-]+):'([^']*)'`: one per-locale label match,
returning the (locale, label) capture pair and the remainder. -/
def matchLabelLoc (s : List Char) : Option ((String × String) × List Char) :=
  (dropLit (("application-label-").data) s).bind fun s1 =>
  match s1.span isWordDash with
  | ([], _) => none
  | (loc, rest) =>
    (dropLit (':' :: [sqc]) rest).bind fun s2 =>
    (closeQ0 s2).map fun p => ((String.mk loc, String.mk p.1), p.2)

/-- `application-icon-([0-9]+):'([^']+)'`: one icon match, returning the
(density, path) capture pair and the remainder. -/
def matchIcon (s : List Char) : Option ((String × String) × List Char) :=
  (dropLit (("application-icon-").data) s).bind fun s1 =>
  match s1.span Char.isDigit with
  | ([], _) => none
  | (dens, rest) =>
    (dropLit (':' :: [sqc]) rest).bind fun s2 =>
    (closeQ1 s2).map fun p => ((String.mk dens, String.mk p.1), p.2)

/-- Fuel-indexed worker consuming the group `(?:'[^']+'\s*)+` token by token. -/
def tokenRunFuel : Nat → List Char → List (List Char)
  | 0, _ => []
  | Nat.succ fuel, s =>
    match quotedTok s with
    | none => []
    | some (t, rest) => t :: tokenRunFuel fuel (rest.dropWhile isSpc)

/-- A pattern `lit` `\s+` `((?:'[^']+'\s*)+)` followed by extraction of every
quoted token of the group (`supports-screens`, `densities`, `locales`). -/
def matchRun (lit : List Char) (s : List Char) : Option (List (List Char)) :=
  (dropLit lit s).bind fun s1 =>
  (ws1 s1).bind fun s2 =>
  match quotedTok s2 with
  | none => none
  | some _ => some (tokenRunFuel (s2.length + 1) s2)

/-- Convert an optional capture to the field value (`""` when unmatched). -/
def optStr : Option (List Char) → String
  | some v => String.mk v
  | none => ""

/-- Python dict assignment `d[k] = v`: overwrite in place, keep insertion
order, append new keys at the end. -/
def dictInsert (k v : String) : List (String × String) → List (String × String)
  | [] => [(k, v)]
  | p :: rest => if p.1 = k then (k, v) :: rest else p :: dictInsert k v rest

/-- Build a Python dict from a list of (key, value) pairs in order. -/
def dictOf (ps : List (String × String)) : List (String × String) :=
  ps.foldl (fun m p => dictInsert p.1 p.2 m) []

/-- Python dict lookup `d.get(k)`. -/
def dlookup : List (String × String) → String → Option String
  | [], _ => none
  | p :: rest, k => if p.1 = k then some p.2 else dlookup rest k

/-- The flat record produced by `parse_aapt2_output` (the `info` dict of
`src/main.py`); mappings are insertion-ordered association lists. -/
structure PackageMetadata where
  package_name : String
  version_name : String
  version_code : String
  platform_build_version_name : String
  platform_build_version_code : String
  compile_sdk_version : String
  compile_sdk_codename : String
  min_sdk : String
  target_sdk : String
  app_name : String
  app_name_labels : List (String × String)
  launchable_activity : String
  permissions : List String
  features : List String
  implied_features : List String
  supports_screens : List String
  supports_any_density : String
  densities : List String
  locales : List String
  icons : List (String × String)
  raw : String
  architectures : List String
deriving DecidableEq

/-- The three captures of the `package:` line, or three empty strings. -/
def pkgTriple (t : List Char) : String × String × String :=
  match search matchPkg t with
  | some g => (String.mk g.1, String.mk g.2.1, String.mk g.2.2)
  | none => ("", "", "")

/-- A single-value attribute field: first match of `lit'([^']+)'`, else `""`. -/
def attrOf (lit : String) (t : List Char) : String :=
  optStr (search (matchLitQ1 (aq lit)) t)

/-- The per-locale label dict built from all `application-label-…` matches. -/
def appLabelsOf (t : List Char) : List (String × String) :=
  dictOf (findall matchLabelLoc t)

/-- The generic `application-label:'…'` capture, else `""`. -/
def genericLabelOf (t : List Char) : String :=
  optStr (search (matchLitQ0 (aq ("application-label:"))) t)

/-- The `application: label='…'` node-attribute capture, else `""`. -/
def nodeLabelOf (t : List Char) : String :=
  optStr (search (matchKeyQ0 (("application:").data) (aq ("label="))) t)

/-- The `launchable-activity: name='…'` capture, else `""` (the optional
trailing label group of the source pattern is never read). -/
def launchableOf (t : List Char) : String :=
  optStr (search (matchKeyQ0 (("launchable-activity:").data) (aq ("name="))) t)

/-- All `uses-permission: name='…'` captures, in order, duplicates kept. -/
def permissionsOf (t : List Char) : List String :=
  (findall (matchKeyName (("uses-permission:").data)) t).map String.mk

/-- All `uses-feature: name='…'` captures, in order, duplicates kept. -/
def featuresOf (t : List Char) : List String :=
  (findall (matchKeyName (("uses-feature:").data)) t).map String.mk

/-- All `uses-implied-feature: name='…'` captures, in order, duplicates kept. -/
def impliedFeaturesOf (t : List Char) : List String :=
  (findall (matchKeyName (("uses-implied-feature:").data)) t).map String.mk

/-- First match of `lit` `\s+` `((?:'[^']+'\s*)+)`, as its quoted tokens. -/
def runOf (lit : String) (t : List Char) : List String :=
  match search (matchRun lit.data) t with
  | some ts => ts.map String.mk
  | none => []

/-- The `supports-any-density: '…'` capture, else `""`. -/
def anyDensityOf (t : List Char) : String :=
  optStr (search (matchKeyTok (("supports-any-density:").data)) t)

/-- The icon dict built from all `application-icon-…` matches. -/
def iconsOf (t : List Char) : List (String × String) :=
  dictOf (findall matchIcon t)

/-- Token extraction of one line for the architectures field: strip the line;
if it starts with `native-code:` or `alt-native-code:`, take every quoted
token on it, else nothing. -/
def archTokens (line : List Char) : List (List Char) :=
  let l := pyStrip line
  if startsWithL (("native-code:").data) l ||
     startsWithL (("alt-native-code:").data) l then
    findall quotedTok l
  else []

/-- The architectures list: quoted tokens of every qualifying line, in line
order, duplicates kept. -/
def architecturesOf (t : List Char) : List String :=
  ((splitlines t).flatMap archTokens).map String.mk

/-- Resolution of the single display name, as in the source: the first
non-empty label among `zh-CN`, `zh-HK`, `zh-TW`, then Python
`generic or labels.get("zh", "") or nodeLabel`. -/
def resolveAppName (labels : List (String × String))
    (generic nodeLabel : String) : String :=
  if (dlookup labels ("zh-CN")).getD "" != "" then
    (dlookup labels ("zh-CN")).getD ""
  else if (dlookup labels ("zh-HK")).getD "" != "" then
    (dlookup labels ("zh-HK")).getD ""
  else if (dlookup labels ("zh-TW")).getD "" != "" then
    (dlookup labels ("zh-TW")).getD ""
  else if generic != "" then generic
  else if (dlookup labels ("zh")).getD "" != "" then
    (dlookup labels ("zh")).getD ""
  else nodeLabel

/-- The parser `parse_aapt2_output` of `src/main.py`: one record, each field
from its own extraction over the same input text. -/
def parse_aapt2_output (text : String) : PackageMetadata :=
  { package_name := (pkgTriple text.data).1
    version_code := (pkgTriple text.data).2.1
    version_name := (pkgTriple text.data).2.2
    platform_build_version_name := attrOf ("platformBuildVersionName=") text.data
    platform_build_version_code := attrOf ("platformBuildVersionCode=") text.data
    compile_sdk_version := attrOf ("compileSdkVersion=") text.data
    compile_sdk_codename := attrOf ("compileSdkVersionCodename=") text.data
    min_sdk := attrOf ("minSdkVersion:") text.data
    target_sdk := attrOf ("targetSdkVersion:") text.data
    app_name := resolveAppName (appLabelsOf text.data) (genericLabelOf text.data)
      (nodeLabelOf text.data)
    app_name_labels := appLabelsOf text.data
    launchable_activity := launchableOf text.data
    permissions := permissionsOf text.data
    features := featuresOf text.data
    implied_features := impliedFeaturesOf text.data
    supports_screens := runOf ("supports-screens:") text.data
    supports_any_density := anyDensityOf text.data
    densities := runOf ("densities:") text.data
    locales := runOf ("locales:") text.data
    icons := iconsOf text.data
    raw := String.mk (pyStrip text.data)
    architectures := architecturesOf text.data }

/-- The display formatter `fmt_sdk` of `src/main.py` (closed over the loaded
`sdk_map`, here passed explicitly). -/
def fmt_sdk (sdk_map : List (String × String)) (api_level : String) : String :=
  if api_level = "" ∨ api_level = "?" then "?"
  else
    match dlookup sdk_map api_level with
    | some lab => api_level ++ "(" ++ lab ++ ")"
    | none => api_level

/-- Priority resolution as the spec words it: the first non-empty entry of the
listed candidates, else the empty string. -/
def firstNonEmptyStr : List String → String
  | [] => ""
  | s :: rest => if s != "" then s else firstNonEmptyStr rest

/-- The display-name priority chain as stated by the spec:
`zh-CN` → `zh-HK` → `zh-TW` → generic label → `zh` entry → node label → `""`
(first non-empty wins; a missing locale entry counts as empty). -/
def appNameSpec (labels : List (String × String))
    (generic nodeLabel : String) : String :=
  firstNonEmptyStr
    [(dlookup labels ("zh-CN")).getD "", (dlookup labels ("zh-HK")).getD "",
     (dlookup labels ("zh-TW")).getD "", generic,
     (dlookup labels ("zh")).getD "", nodeLabel]

/-- The value of the last pair with the given key, if any (what repeated
Python dict assignment leaves behind for that key). -/
def lastVal : List (String × String) → String → Option String
  | [], _ => none
  | p :: rest, k =>
    match lastVal rest k with
    | some v => some v
    | none => if p.1 = k then some p.2 else none

/-- Numeric value of a density key (a digit run, by the icon pattern). -/
def densNum (s : String) : Nat :=
  s.data.foldl (fun n c => n * 10 + (c.toNat - 48)) 0

/-- Numeric comparison of icon densities (`sorted(key=lambda x: int(x[0]))`). -/
def densLt (a b : String × String) : Bool :=
  densNum a.1 < densNum b.1

/-- Insertion step for sorting icon entries by numeric density. -/
def insortIcons (p : String × String) :
    List (String × String) → List (String × String)
  | [] => [p]
  | x :: xs => if densLt p x then p :: x :: xs else x :: insortIcons p xs

/-- Sort icon entries by numeric density (the display-layer consumer). -/
def sortIconsNum (l : List (String × String)) : List (String × String) :=
  l.foldr insortIcons []

/-- No recognized pattern occurs in the input: every search fails and every
findall is empty. -/
abbrev NoPatterns (text : String) : Prop :=
  search matchPkg text.data = none ∧
  search (matchLitQ1 (aq ("platformBuildVersionName="))) text.data = none ∧
  search (matchLitQ1 (aq ("platformBuildVersionCode="))) text.data = none ∧
  search (matchLitQ1 (aq ("compileSdkVersion="))) text.data = none ∧
  search (matchLitQ1 (aq ("compileSdkVersionCodename="))) text.data = none ∧
  search (matchLitQ1 (aq ("minSdkVersion:"))) text.data = none ∧
  search (matchLitQ1 (aq ("targetSdkVersion:"))) text.data = none ∧
  findall matchLabelLoc text.data = [] ∧
  search (matchLitQ0 (aq ("application-label:"))) text.data = none ∧
  search (matchKeyQ0 (("application:").data) (aq ("label="))) text.data = none ∧
  search (matchKeyQ0 (("launchable-activity:").data) (aq ("name="))) text.data = none ∧
  findall (matchKeyName (("uses-permission:").data)) text.data = [] ∧
  findall (matchKeyName (("uses-feature:").data)) text.data = [] ∧
  findall (matchKeyName (("uses-implied-feature:").data)) text.data = [] ∧
  search (matchRun (("supports-screens:").data)) text.data = none ∧
  search (matchKeyTok (("supports-any-density:").data)) text.data = none ∧
  search (matchRun (("densities:").data)) text.data = none ∧
  search (matchRun (("locales:").data)) text.data = none ∧
  findall matchIcon text.data = [] ∧
  (splitlines text.data).flatMap archTokens = []

/-- Input of the C2 example: a zh-CN label and a generic label. -/
def exLabels : String :=
  "application-label-zh-CN:" ++ q ("A") ++ "\napplication-label:" ++ q ("B")

/-- Input of the C3 example: a native-code line then an alt-native-code line. -/
def exArch : String :=
  "native-code: " ++ q ("arm64-v8a") ++ " " ++ q ("armeabi-v7a") ++
  "\nalt-native-code: " ++ q ("x86")

/-- Two native-code lines with the same token (duplicates must be kept). -/
def exArchDup : String :=
  "native-code: " ++ q ("x86") ++ "\nnative-code: " ++ q ("x86")

/-- Input of the C4 example: the same permission named twice. -/
def exPerm : String :=
  "uses-permission: name=" ++ q ("P1") ++ "\nuses-permission: name=" ++ q ("P1")

/-- A one-line supports-screens run. -/
def exRunOneLine : String :=
  "supports-screens: " ++ q ("small") ++ " " ++ q ("normal")

/-- A densities run whose second token sits on the next line. -/
def exRunML : String :=
  "densities: " ++ q ("160") ++ "\n" ++ q ("240")

/-- Input of the C6 example: icons at densities 48 and 192. -/
def exIcons : String :=
  "application-icon-48:" ++ q ("res/icon48.png") ++
  "\napplication-icon-192:" ++ q ("res/icon192.png")

/-- Two icon matches with the same density 48. -/
def exIconsDup : String :=
  "application-icon-48:" ++ q ("a.png") ++ " application-icon-48:" ++ q ("b.png")

/-- The attribute (equals-quote) SDK form only. -/
def exAttrMin : String := "minSdkVersion=" ++ q ("X")

/-- Two colon-quote minSdkVersion occurrences (the first must win). -/
def exColonMin : String :=
  "minSdkVersion:" ++ q ("7") ++ " minSdkVersion:" ++ q ("9")

/-- A package line with a name but no versionCode/versionName attributes. -/
def exPkgOnlyName : String := "package: name=" ++ q ("X")

/-- An input containing none of the recognized patterns. -/
def exPlain : String := "  no recognized patterns here  "

/-- A conditional that yields its subject in both branches of emptiness. -/
theorem ifne_self (s : String) : (if s != "" then s else "") = s := by
  by_cases h : s = ""
  · simp [h]
  · simp [bne_iff_ne, h]

/-- The source's truthiness-based name resolution equals the spec's
first-non-empty priority chain. -/
theorem resolve_eq_spec (labels : List (String × String))
    (generic nodeLabel : String) :
    resolveAppName labels generic nodeLabel =
      appNameSpec labels generic nodeLabel := by
  simp only [resolveAppName, appNameSpec, firstNonEmptyStr, ifne_self]

/-- Lookup after one dict assignment: the assigned key reads the new value,
all other keys are untouched. -/
theorem dlookup_dictInsert (l : List (String × String)) (k0 v k : String) :
    dlookup (dictInsert k0 v l) k = if k0 = k then some v else dlookup l k := by
  induction l with
  | nil => simp [dictInsert, dlookup]
  | cons p rest ih =>
    simp only [dictInsert, dlookup]
    split_ifs <;> simp_all [dlookup]

/-- Lookup through a left fold of dict assignments: the last assignment of a
key wins, and otherwise the initial dict is read. -/
theorem dlookup_foldl_dictInsert (ms : List (String × String))
    (init : List (String × String)) (k : String) :
    dlookup (ms.foldl (fun m p => dictInsert p.1 p.2 m) init) k =
      match lastVal ms k with
      | some v => some v
      | none => dlookup init k := by
  induction ms generalizing init with
  | nil => simp [lastVal]
  | cons p rest ih =>
    simp only [List.foldl_cons, lastVal]
    rw [ih]
    cases h : lastVal rest k with
    | some v => simp
    | none =>
      by_cases hp : p.1 = k <;> simp [hp, dlookup_dictInsert]

/-- Lookup in a dict built from a match list: the last match of a key wins. -/
theorem dlookup_dictOf (ms : List (String × String)) (k : String) :
    dlookup (dictOf ms) k = lastVal ms k := by
  unfold dictOf
  rw [dlookup_foldl_dictInsert]
  cases lastVal ms k <;> simp [dlookup]

/-- Claim C1: parse is total and never signals an error — it is a function
into `PackageMetadata`; `raw` is always the trimmed input; each field whose
own pattern does not occur in the input equals its zero value (empty string,
empty list, empty dict), independently of the other fields; and in particular
when none of the recognized patterns occurs, every field except `raw` is at
its zero value. -/
theorem c1_total_and_zero_defaults (text : String) :
    (parse_aapt2_output text).raw = String.mk (pyStrip text.data) ∧
    (search matchPkg text.data = none →
      (parse_aapt2_output text).package_name = "" ∧
      (parse_aapt2_output text).version_code = "" ∧
      (parse_aapt2_output text).version_name = "") ∧
    (search (matchLitQ1 (aq ("platformBuildVersionName="))) text.data = none →
      (parse_aapt2_output text).platform_build_version_name = "") ∧
    (search (matchLitQ1 (aq ("platformBuildVersionCode="))) text.data = none →
      (parse_aapt2_output text).platform_build_version_code = "") ∧
    (search (matchLitQ1 (aq ("compileSdkVersion="))) text.data = none →
      (parse_aapt2_output text).compile_sdk_version = "") ∧
    (search (matchLitQ1 (aq ("compileSdkVersionCodename="))) text.data = none →
      (parse_aapt2_output text).compile_sdk_codename = "") ∧
    (search (matchLitQ1 (aq ("minSdkVersion:"))) text.data = none →
      (parse_aapt2_output text).min_sdk = "") ∧
    (search (matchLitQ1 (aq ("targetSdkVersion:"))) text.data = none →
      (parse_aapt2_output text).target_sdk = "") ∧
    (findall matchLabelLoc text.data = [] →
      (parse_aapt2_output text).app_name_labels = []) ∧
    (findall matchLabelLoc text.data = [] →
      search (matchLitQ0 (aq ("application-label:"))) text.data = none →
      search (matchKeyQ0 (("application:").data) (aq ("label="))) text.data
        = none →
      (parse_aapt2_output text).app_name = "") ∧
    (search (matchKeyQ0 (("launchable-activity:").data) (aq ("name=")))
        text.data = none →
      (parse_aapt2_output text).launchable_activity = "") ∧
    (findall (matchKeyName (("uses-permission:").data)) text.data = [] →
      (parse_aapt2_output text).permissions = []) ∧
    (findall (matchKeyName (("uses-feature:").data)) text.data = [] →
      (parse_aapt2_output text).features = []) ∧
    (findall (matchKeyName (("uses-implied-feature:").data)) text.data = [] →
      (parse_aapt2_output text).implied_features = []) ∧
    (search (matchRun (("supports-screens:").data)) text.data = none →
      (parse_aapt2_output text).supports_screens = []) ∧
    (search (matchKeyTok (("supports-any-density:").data)) text.data = none →
      (parse_aapt2_output text).supports_any_density = "") ∧
    (search (matchRun (("densities:").data)) text.data = none →
      (parse_aapt2_output text).densities = []) ∧
    (search (matchRun (("locales:").data)) text.data = none →
      (parse_aapt2_output text).locales = []) ∧
    (findall matchIcon text.data = [] →
      (parse_aapt2_output text).icons = []) ∧
    ((splitlines text.data).flatMap archTokens = [] →
      (parse_aapt2_output text).architectures = []) ∧
    (NoPatterns text →
      parse_aapt2_output text =
        { package_name := "", version_name := "", version_code := "",
          platform_build_version_name := "", platform_build_version_code := "",
          compile_sdk_version := "", compile_sdk_codename := "",
          min_sdk := "", target_sdk := "", app_name := "",
          app_name_labels := [], launchable_activity := "",
          permissions := [], features := [], implied_features := [],
          supports_screens := [], supports_any_density := "",
          densities := [], locales := [], icons := [],
          raw := String.mk (pyStrip text.data), architectures := [] }) := by
  refine ⟨rfl, ?_, ?_, ?_, ?_, ?_, ?_, ?_, ?_, ?_, ?_, ?_, ?_, ?_, ?_, ?_,
    ?_, ?_, ?_, ?_, ?_⟩
  · intro h
    refine ⟨?_, ?_, ?_⟩ <;> simp [parse_aapt2_output, pkgTriple, h]
  · intro h; simp [parse_aapt2_output, attrOf, optStr, h]
  · intro h; simp [parse_aapt2_output, attrOf, optStr, h]
  · intro h; simp [parse_aapt2_output, attrOf, optStr, h]
  · intro h; simp [parse_aapt2_output, attrOf, optStr, h]
  · intro h; simp [parse_aapt2_output, attrOf, optStr, h]
  · intro h; simp [parse_aapt2_output, attrOf, optStr, h]
  · intro h; simp [parse_aapt2_output, appLabelsOf, dictOf, h]
  · intro h1 h2 h3
    simp [parse_aapt2_output, appLabelsOf, genericLabelOf, nodeLabelOf,
      dictOf, optStr, resolveAppName, dlookup, h1, h2, h3]
  · intro h; simp [parse_aapt2_output, launchableOf, optStr, h]
  · intro h; simp [parse_aapt2_output, permissionsOf, h]
  · intro h; simp [parse_aapt2_output, featuresOf, h]
  · intro h; simp [parse_aapt2_output, impliedFeaturesOf, h]
  · intro h; simp [parse_aapt2_output, runOf, h]
  · intro h; simp [parse_aapt2_output, anyDensityOf, optStr, h]
  · intro h; simp [parse_aapt2_output, runOf, h]
  · intro h; simp [parse_aapt2_output, runOf, h]
  · intro h; simp [parse_aapt2_output, iconsOf, dictOf, h]
  · intro h; simp [parse_aapt2_output, architecturesOf, h]
  · intro h
    obtain ⟨h1, h2, h3, h4, h5, h6, h7, h8, h9, h10, h11, h12, h13, h14, h15,
      h16, h17, h18, h19, h20⟩ := h
    simp only [parse_aapt2_output, pkgTriple, attrOf, appLabelsOf,
      genericLabelOf, nodeLabelOf, launchableOf, permissionsOf, featuresOf,
      impliedFeaturesOf, runOf, anyDensityOf, iconsOf, architecturesOf,
      optStr, dictOf, h1, h2, h3, h4, h5, h6, h7, h8, h9, h10, h11, h12,
      h13, h14, h15, h16, h17, h18, h19, h20]
    rfl

/-- Witness for C1: a pattern-free input yields the all-zero record, and on a
mixed input whose permission pattern matches but whose launchable-activity
pattern is absent, the absent field alone is at its zero value. -/
theorem c1_total_and_zero_defaults_witness :
    (parse_aapt2_output exPlain =
      { package_name := "", version_name := "", version_code := "",
        platform_build_version_name := "", platform_build_version_code := "",
        compile_sdk_version := "", compile_sdk_codename := "",
        min_sdk := "", target_sdk := "", app_name := "",
        app_name_labels := [], launchable_activity := "",
        permissions := [], features := [], implied_features := [],
        supports_screens := [], supports_any_density := "",
        densities := [], locales := [], icons := [],
        raw := "no recognized patterns here", architectures := [] }) ∧
    (parse_aapt2_output exPerm).launchable_activity = "" ∧
    (parse_aapt2_output exPerm).permissions = ["P1", "P1"] := by
  obtain ⟨-, -, -, -, -, -, -, -, -, -, w11, -, -, -, -, -, -, -, -, -, w21⟩ :=
    c1_total_and_zero_defaults exPerm
  obtain ⟨-, -, -, -, -, -, -, -, -, -, -, -, -, -, -, -, -, -, -, -, z21⟩ :=
    c1_total_and_zero_defaults exPlain
  exact ⟨z21 (by decide), w11 (by decide), by decide⟩

/-- Claim C2: the resolved app name follows the stated priority chain
(zh-CN → zh-HK → zh-TW → generic label → zh entry → node label → empty), and
on the example with only a zh-CN label `A` and a generic label `B` it is `A`. -/
theorem c2_app_name_priority (text : String) :
    (parse_aapt2_output text).app_name =
      appNameSpec (appLabelsOf text.data) (genericLabelOf text.data)
        (nodeLabelOf text.data) ∧
    (parse_aapt2_output exLabels).app_name = "A" :=
  ⟨resolve_eq_spec (appLabelsOf text.data) (genericLabelOf text.data)
    (nodeLabelOf text.data), by decide⟩

/-- Claim C3: architectures come from scanning lines in order, taking every
quoted token of each line that (after stripping) starts with a native-code or
alt-native-code marker, duplicates preserved; the two-line example yields
the three tokens in order, and a repeated token is kept twice. -/
theorem c3_architectures_by_line (text : String) :
    (parse_aapt2_output text).architectures =
      ((splitlines text.data).flatMap archTokens).map String.mk ∧
    (parse_aapt2_output exArch).architectures =
      ["arm64-v8a", "armeabi-v7a", "x86"] ∧
    (parse_aapt2_output exArchDup).architectures = ["x86", "x86"] :=
  ⟨rfl, by decide, by decide⟩

/-- Claim C4: permissions, features and implied features are all matches of
their patterns, in input order, duplicates preserved; the doubled `P1`
permission appears twice. -/
theorem c4_all_matches_in_order (text : String) :
    (parse_aapt2_output text).permissions =
      (findall (matchKeyName (("uses-permission:").data)) text.data).map
        String.mk ∧
    (parse_aapt2_output text).features =
      (findall (matchKeyName (("uses-feature:").data)) text.data).map
        String.mk ∧
    (parse_aapt2_output text).implied_features =
      (findall (matchKeyName (("uses-implied-feature:").data)) text.data).map
        String.mk ∧
    (parse_aapt2_output exPerm).permissions = ["P1", "P1"] :=
  ⟨rfl, rfl, rfl, by decide⟩

/-- Counterexample to claim C5: in `densities: '160'` followed by a line
`'240'`, the token `240` of the second line contributes to `densities`
(the separator class of the run pattern matches newlines), so the field is
not extracted from a single line. -/
theorem c5_counterexample :
    (parse_aapt2_output exRunML).densities = ["160", "240"] ∧
    (findall quotedTok ((splitlines exRunML.data).headD [])).map String.mk =
      ["160"] ∧
    (parse_aapt2_output exRunML).densities ≠
      (findall quotedTok ((splitlines exRunML.data).headD [])).map
        String.mk := by
  refine ⟨by decide, by decide, by decide⟩

/-- Claim C5 as amended: supports_screens, densities and locales each come
from the first occurrence of their marker followed by whitespace and a run of
quoted tokens; the run's whitespace separators include line breaks, so it may
continue onto following lines; the field is exactly the quoted tokens of that
run, in order. -/
theorem c5_amended_token_runs (text : String) :
    (parse_aapt2_output text).supports_screens =
      runOf ("supports-screens:") text.data ∧
    (parse_aapt2_output text).densities = runOf ("densities:") text.data ∧
    (parse_aapt2_output text).locales = runOf ("locales:") text.data ∧
    (parse_aapt2_output exRunOneLine).supports_screens = ["small", "normal"] ∧
    (parse_aapt2_output exRunML).densities = ["160", "240"] :=
  ⟨rfl, rfl, rfl, by decide, by decide⟩

/-- Counterexample to claim C6: two icon matches with the same density 48
leave one mapping entry, not one entry per matched occurrence. -/
theorem c6_counterexample :
    (parse_aapt2_output exIconsDup).icons = [("48", "b.png")] ∧
    (findall matchIcon exIconsDup.data).length = 2 ∧
    (parse_aapt2_output exIconsDup).icons.length ≠
      (findall matchIcon exIconsDup.data).length := by
  refine ⟨by decide, by decide, by decide⟩

/-- Claim C6 as amended: icons form a mapping with one entry per distinct
density among the `application-icon-<density>:'<path>'` matches, keyed by the
numeric density string, the last match of a density winning; on the example
the mapping has exactly the 48 and 192 entries and numeric key order puts 48
before 192. -/
theorem c6_amended_icons_mapping (text d : String) :
    dlookup ((parse_aapt2_output text).icons) d =
      lastVal (findall matchIcon text.data) d ∧
    (parse_aapt2_output exIcons).icons =
      [("48", "res/icon48.png"), ("192", "res/icon192.png")] ∧
    sortIconsNum ((parse_aapt2_output exIcons).icons) =
      [("48", "res/icon48.png"), ("192", "res/icon192.png")] :=
  ⟨dlookup_dictOf (findall matchIcon text.data) d, by decide, by decide⟩

/-- Claim C7: min_sdk and target_sdk are set only by the colon-then-quote
pattern (first match each); the attribute equals-quote form does not set them,
and with two colon-form occurrences the first wins. -/
theorem c7_sdk_colon_only (text : String) :
    (parse_aapt2_output text).min_sdk =
      optStr (search (matchLitQ1 (aq ("minSdkVersion:"))) text.data) ∧
    (parse_aapt2_output text).target_sdk =
      optStr (search (matchLitQ1 (aq ("targetSdkVersion:"))) text.data) ∧
    (parse_aapt2_output exAttrMin).min_sdk = "" ∧
    (parse_aapt2_output exColonMin).min_sdk = "7" :=
  ⟨rfl, rfl, by decide, by decide⟩

/-- Claim C8: parsing is deterministic and depends only on the input string —
equal inputs give structurally equal records. -/
theorem c8_deterministic (s t : String) (h : s = t) :
    parse_aapt2_output s = parse_aapt2_output t := by rw [h]

/-- Witness for C8: re-parsing the example text yields an equal record. -/
theorem c8_deterministic_witness :
    parse_aapt2_output exLabels = parse_aapt2_output exLabels :=
  c8_deterministic exLabels exLabels rfl

/-- Counterexample to claim C9 as universally stated: with the literal `?` as
a table key, the formatter returns `?` rather than the `level(label)` form,
because the emptiness guard also intercepts the literal `?`. -/
theorem c9_counterexample :
    dlookup [("?", "Odd")] "?" = some "Odd" ∧
    fmt_sdk [("?", "Odd")] "?" = "?" ∧
    ("?" : String) ≠ "?" ++ "(" ++ "Odd" ++ ")" := by
  refine ⟨by decide, by decide, by decide⟩

/-- Claim C9 as amended: the formatter returns `?` for an empty level or the
literal `?`; otherwise `level(label)` when the level is a table key and the
bare level when it is absent. -/
theorem c9_amended_fmt_sdk (tbl : List (String × String)) (lvl : String) :
    (lvl = "" ∨ lvl = "?" → fmt_sdk tbl lvl = "?") ∧
    (lvl ≠ "" → lvl ≠ "?" → ∀ lab, dlookup tbl lvl = some lab →
      fmt_sdk tbl lvl = lvl ++ "(" ++ lab ++ ")") ∧
    (lvl ≠ "" → lvl ≠ "?" → dlookup tbl lvl = none →
      fmt_sdk tbl lvl = lvl) := by
  refine ⟨?_, ?_, ?_⟩
  · intro h
    simp only [fmt_sdk]
    rw [if_pos h]
  · intro h1 h2 lab hl
    simp only [fmt_sdk]
    rw [if_neg (not_or.mpr ⟨h1, h2⟩), hl]
  · intro h1 h2 hl
    simp only [fmt_sdk]
    rw [if_neg (not_or.mpr ⟨h1, h2⟩), hl]

/-- Witness for the amended C9 at concrete inputs (level present in table). -/
theorem c9_amended_fmt_sdk_witness :
    fmt_sdk [("33", "13")] "33" = "33" ++ "(" ++ "13" ++ ")" :=
  (c9_amended_fmt_sdk [("33", "13")] "33").2.1 (by decide) (by decide)
    "13" (by decide)

/-- Claim C10: package_name, version_code and version_name are all-or-nothing
— either one match of the package pattern (name, versionCode, versionName in
that order) sets all three, or all three stay empty; a package line carrying
only a name sets none of them. -/
theorem c10_package_all_or_nothing (text : String) :
    (((parse_aapt2_output text).package_name = "" ∧
      (parse_aapt2_output text).version_code = "" ∧
      (parse_aapt2_output text).version_name = "") ∨
     (∃ g, search matchPkg text.data = some g ∧
       (parse_aapt2_output text).package_name = String.mk g.1 ∧
       (parse_aapt2_output text).version_code = String.mk g.2.1 ∧
       (parse_aapt2_output text).version_name = String.mk g.2.2)) ∧
    (parse_aapt2_output exPkgOnlyName).package_name = "" := by
  constructor
  · cases h : search matchPkg text.data with
    | none =>
      left
      refine ⟨?_, ?_, ?_⟩ <;> simp [parse_aapt2_output, pkgTriple, h]
    | some g =>
      right
      refine ⟨g, rfl, ?_, ?_, ?_⟩ <;> simp [parse_aapt2_output, pkgTriple, h]
  · decide
